import Mathlib

/-!
Shallow embedding of the capture-to-result pipeline of `src/src/App.tsx`.

Numbers that are JavaScript floats in the source (pixel coordinates,
confidences, normalized bounds) are modelled as exact rationals `ℚ`.
JavaScript strings are modelled as Lean `String`; the string operations
used by the source (`toLowerCase`, `toUpperCase`, `includes`,
the global hyphen-to-space replace) act on ASCII data here and are defined by structural
recursion over the character list so that concrete instances evaluate.

The remote fetch is modelled by an explicit `FetchResult` value: a network
failure, or an HTTP response carrying `ok`, `statusText` and the outcome of
`response.json()` (a parse error or a parsed `ResponseData`).  The current
time (`new Date().toLocaleString(...)`) is passed in as an opaque string.
-/

/-- ASCII lower-casing of a single character, as `String.prototype.toLowerCase`
acts on the ASCII class labels occurring in this application. -/
def lowerChar (c : Char) : Char :=
  if 65 ≤ c.toNat ∧ c.toNat ≤ 90 then Char.ofNat (c.toNat + 32) else c

/-- ASCII upper-casing of a single character, as `String.prototype.toUpperCase`
acts on the ASCII class labels occurring in this application. -/
def upperChar (c : Char) : Char :=
  if 97 ≤ c.toNat ∧ c.toNat ≤ 122 then Char.ofNat (c.toNat - 32) else c

/-- Model of `s.toLowerCase()` (ASCII). -/
def jsToLowerCase (s : String) : String := ⟨s.data.map lowerChar⟩

/-- Model of `s.toUpperCase()` (ASCII). -/
def jsToUpperCase (s : String) : String := ⟨s.data.map upperChar⟩

/-- Does `pat` occur as a contiguous sublist of the second argument? -/
def hasSubstrAux (pat : List Char) : List Char → Bool
  | [] => List.isPrefixOf pat []
  | c :: rest => List.isPrefixOf pat (c :: rest) || hasSubstrAux pat rest

/-- Model of `s.includes(pat)` on strings. -/
def jsIncludes (s pat : String) : Bool := hasSubstrAux pat.data s.data

/-- Model of the global single-character replace, as used by the source to
turn every hyphen of the best class label into a space. -/
def replaceChar (old new : Char) (s : String) : String :=
  ⟨s.data.map (fun c => if c = old then new else c)⟩

/-- Model of `Math.round` (round half toward positive infinity) on the exact
rational carried by the embedding. -/
def jsRound (q : ℚ) : ℤ := ⌊q + 1/2⌋

/-- Model of `x.toFixed(1)` for the non-negative percentages this application
formats: round `x` to one decimal digit and print it. -/
def toFixed1 (q : ℚ) : String :=
  let n := jsRound (q * 10)
  toString (n / 10) ++ "." ++ toString (n % 10)

/-- Bounding box in the 0–1000 normalized space (interface `BoundingBox`). -/
structure BoundingBox where
  ymin : ℚ
  xmin : ℚ
  ymax : ℚ
  xmax : ℚ
deriving DecidableEq

/-- One raw prediction from the remote detector: pixel-space center `x`,`y`,
size `width`,`height`, a class label and a confidence score. -/
structure Prediction where
  x : ℚ
  y : ℚ
  width : ℚ
  height : ℚ
  «class» : String
  confidence : ℚ
deriving DecidableEq

/-- The four verdict statuses of `DetectionResult['status']`:
`'Safe' | 'Contaminated' | 'Inconclusive' | 'No Fish Detected'`. -/
inductive VerdictStatus where
  | Safe
  | Contaminated
  | Inconclusive
  | NoFishDetected
deriving DecidableEq

/-- The literal status strings of the source union type. -/
def verdictStatusText : VerdictStatus → String
  | .Safe => "Safe"
  | .Contaminated => "Contaminated"
  | .Inconclusive => "Inconclusive"
  | .NoFishDetected => "No Fish Detected"

/-- Interface `DetectionResult`.  The fields marked optional in the source
interface (`location`, `primarySymptom`, `boundingBoxes`) are always populated
by `analyzeImage`, so they are plain fields here. -/
structure DetectionResult where
  status : VerdictStatus
  confidence : ℚ
  description : String
  guidance : String
  timestamp : String
  image : String
  location : String
  primarySymptom : String
  boundingBoxes : List BoundingBox
deriving DecidableEq

/-- The `image` member of the inference response (`data.image`); either pixel
dimension may be absent in a malformed response. -/
structure ImageDims where
  width : Option ℚ
  height : Option ℚ
deriving DecidableEq

/-- The parsed JSON body of a successful inference response; `predictions` or
`image` may be absent in a malformed response. -/
structure ResponseData where
  predictions : Option (List Prediction)
  image : Option ImageDims
deriving DecidableEq

/-- The observable part of the `fetch` response used by `analyzeImage`:
`response.ok`, `response.statusText`, and the outcome of `response.json()`
(`Except.error` models a JSON parse failure with the runtime's message). -/
structure HttpResponse where
  ok : Bool
  statusText : String
  body : Except String ResponseData

/-- Outcome of the `fetch` call itself: a response, or a rejected promise
(network failure) carrying an error message. -/
inductive FetchResult where
  | success (resp : HttpResponse)
  | networkError (msg : String)

/-- Source function `normalizeCoordinates` (lines 65–81): map a pixel-space center/size box to
the 0–1000 normalized space and clamp every bound into `[0, 1000]`. -/
def normalizeCoordinates (pred : Prediction) (imgWidth imgHeight : ℚ) : BoundingBox :=
  let xmin := ((pred.x - pred.width / 2) / imgWidth) * 1000
  let xmax := ((pred.x + pred.width / 2) / imgWidth) * 1000
  let ymin := ((pred.y - pred.height / 2) / imgHeight) * 1000
  let ymax := ((pred.y + pred.height / 2) / imgHeight) * 1000
  { ymin := max 0 (min 1000 ymin)
    xmin := max 0 (min 1000 xmin)
    ymax := max 0 (min 1000 ymax)
    xmax := max 0 (min 1000 xmax) }

/-- The clamping applied by `normalizeCoordinates` to each raw bound,
`Math.max(0, Math.min(1000, v))`. -/
def clampBound (v : ℚ) : ℚ := max 0 (min 1000 v)

/-- The ordering used by `predictions.sort((a, b) => b.confidence - a.confidence)`:
`a` precedes `b` when `b.confidence ≤ a.confidence` (descending confidence).
The JavaScript sort is stable, so the in-place sort of the source is modelled
by the stable `List.insertionSort` with this relation. -/
def confDesc (a b : Prediction) : Prop := b.confidence ≤ a.confidence

instance : DecidableRel confDesc :=
  fun a b => inferInstanceAs (Decidable (b.confidence ≤ a.confidence))

instance : IsTotal Prediction confDesc :=
  ⟨fun a b => (le_total a.confidence b.confidence).symm⟩

instance : IsTrans Prediction confDesc :=
  ⟨fun _ _ _ hab hbc => le_trans hbc hab⟩

/-- JavaScript `v || 1` applied to the possibly-absent image dimensions
(`data.image?.width || 1`): an absent (`undefined`) or zero dimension is
replaced by `1`. -/
def jsOrOne (v : Option ℚ) : ℚ :=
  match v with
  | none => 1
  | some q => if q = 0 then 1 else q

/-- Verdict derivation of `analyzeImage` (lines 96–130), starting from the
parsed response body: default missing `predictions` to `[]` and missing
dimensions to `1`, sort the predictions in place by descending confidence,
take the first as the best prediction, and build the `DetectionResult`. -/
def deriveVerdict (data : ResponseData) (now : String) (base64Image : String) : DetectionResult :=
  let predictions := data.predictions.getD []
  let imgWidth := jsOrOne (data.image.bind ImageDims.width)
  let imgHeight := jsOrOne (data.image.bind ImageDims.height)
  let hasDetections : Bool := predictions.length > 0
  let sorted := if hasDetections then List.insertionSort confDesc predictions else predictions
  let bestPred := if hasDetections then sorted.head? else none
  let status : VerdictStatus :=
    match bestPred with
    | some bp => if jsIncludes (jsToLowerCase bp.«class») "healthy" then .Safe else .Contaminated
    | none => .NoFishDetected
  { status := status
    confidence :=
      match bestPred with
      | some bp => bp.confidence
      | none => 0
    location := "Binangonan, Rizal"
    primarySymptom :=
      match bestPred with
      | some bp => jsToUpperCase (replaceChar '-' ' ' bp.«class»)
      | none => "NONE"
    description :=
      match bestPred with
      | some bp =>
        if status = .Safe then
          "The AI model identified the sample as " ++ bp.«class» ++ " with " ++
            toString (jsRound (bp.confidence * 100)) ++
            "% confidence. No HAB indicators were found."
        else
          "Your custom model detected " ++ bp.«class» ++ " with " ++
            toString (jsRound (bp.confidence * 100)) ++
            "% certainty. This indicates a high risk of HAB contamination."
      | none =>
        "No fish or HAB indicators were detected in the frame. Please ensure the sample is centered and well-lit."
    guidance :=
      match bestPred with
      | some _ =>
        if status = .Safe then
          "Sample appears normal. However, always stay updated with the latest BFAR Red Tide Bulletins before consumption."
        else
          "DO NOT CONSUME. Report this sample to the nearest BFAR or LLDA station immediately."
      | none =>
        "Please try scanning again. Position the fish clearly in the center of the frame."
    boundingBoxes := sorted.map (fun p => normalizeCoordinates p imgWidth imgHeight)
    timestamp := now
    image := base64Image }

/-- The generic message of the top-level `catch` of `analyzeImage`. -/
def detectionFailedMsg : String :=
  "Detection failed. Please check your Roboflow API configuration."

/-- The body of the `try` block of `analyzeImage` (lines 87–130): a network
failure rejects with its own message, a non-ok response throws
`Roboflow API error: <statusText>`, a JSON parse failure throws the runtime's
message, and otherwise the verdict is derived from the parsed body. -/
def analyzeImageBody (base64Image : String) (fetchRes : FetchResult) (now : String) :
    Except String DetectionResult :=
  match fetchRes with
  | .networkError msg => .error msg
  | .success resp =>
    if !resp.ok then .error ("Roboflow API error: " ++ resp.statusText)
    else
      match resp.body with
      | .error parseMsg => .error parseMsg
      | .ok data => .ok (deriveVerdict data now base64Image)

/-- Source function `analyzeImage` (lines 83–135): the `try` body wrapped by the `catch` that
replaces every failure with the generic detection-failed message. -/
def analyzeImage (base64Image : String) (fetchRes : FetchResult) (now : String) :
    Except String DetectionResult :=
  match analyzeImageBody base64Image fetchRes now with
  | .ok result => .ok result
  | .error _ => .error detectionFailedMsg

/-- The `DetectionStatus` enum of the application state machine. -/
inductive DetectionStatus where
  | IDLE
  | ANALYZING
  | SUCCESS
  | ERROR
deriving DecidableEq

/-- The `App` component state: the five `useState` cells. -/
structure AppState where
  status : DetectionStatus
  result : Option DetectionResult
  error : Option String
  lastImg : Option String
  isFlashOn : Bool
deriving DecidableEq

/-- The initial values of the five `useState` cells. -/
def initialAppState : AppState :=
  { status := .IDLE, result := none, error := none, lastImg := none, isFlashOn := false }

/-- The synchronous part of `handleCapture` before the `await` (lines 355–357):
store the captured frame, enter `ANALYZING`, clear the error. -/
def handleCaptureStart (s : AppState) (imageData : String) : AppState :=
  { s with lastImg := some imageData, status := .ANALYZING, error := none }

/-- JavaScript `err.message || fallback`: an empty message is falsy and is
replaced by the fallback. -/
def jsMessageOr (msg fallback : String) : String :=
  if msg = "" then fallback else msg

/-- The continuation of `handleCapture` after `analyzeImage` settles
(lines 358–365): store the verdict and enter `SUCCESS`, or store the error
message and enter `ERROR`. -/
def handleCaptureFinish (s : AppState) (outcome : Except String DetectionResult) : AppState :=
  match outcome with
  | .ok analysisResult => { s with result := some analysisResult, status := .SUCCESS }
  | .error msg =>
    { s with error := some (jsMessageOr msg "An unexpected error occurred during analysis.")
             status := .ERROR }

/-- Source function `resetDetection` (lines 368–372): clear the verdict, return to `IDLE`,
clear the error. -/
def resetDetection (s : AppState) : AppState :=
  { s with result := none, status := .IDLE, error := none }

/-- The confidence percentage rendered by `ResultDisplay` (line 296) and by the
report (line 376): `(result.confidence * 100).toFixed(1)` followed by `%`. -/
def confidenceDisplay (result : DetectionResult) : String :=
  toFixed1 (result.confidence * 100) ++ "%"

/-- Source function `getZoomStyle` of `ResultDisplay` (lines 242–246), reduced to the transform
origin it computes: the center of the first bounding box (as percentages),
or `(50, 50)` when there is no box or no fish was detected. -/
def getZoomOrigin (result : DetectionResult) : ℚ × ℚ :=
  if result.status = .NoFishDetected ∨ result.boundingBoxes.length = 0 then (50, 50)
  else
    match result.boundingBoxes.head? with
    | none => (50, 50)
    | some box => ((box.xmin + box.xmax) / 20, (box.ymin + box.ymax) / 20)

/-- The plain-text report serialized by `downloadReport` (line 376). -/
def reportContent (result : DetectionResult) : String :=
  "LIYA - HAB DETECTION REPORT\n==========================\nDate/Time: " ++ result.timestamp ++
  "\nLocation: " ++ result.location ++
  "\nOverall Status: " ++ verdictStatusText result.status ++
  "\nConfidence: " ++ toFixed1 (result.confidence * 100) ++ "%" ++
  "\n\nINDICATORS DETECTED:\n- Primary Indicator: " ++ result.primarySymptom ++
  "\n- Description: " ++ result.description ++
  "\n\nGUIDANCE:\n- " ++ result.guidance ++
  "\n\nCONTACTS:\n- LLDA: (02) 8376-4039\n- BFAR: (049) 536-8200\n=========================="

/-! ### Helper lemmas -/

theorem clampBound_nonneg (v : ℚ) : 0 ≤ clampBound v := le_max_left _ _

theorem clampBound_le (v : ℚ) : clampBound v ≤ 1000 :=
  max_le (by norm_num) (min_le_left _ _)

theorem clampBound_mono {v w : ℚ} (h : v ≤ w) : clampBound v ≤ clampBound w :=
  max_le_max le_rfl (min_le_min le_rfl h)

theorem head_insertionSort_max (l : List Prediction) (h : l ≠ []) :
    ∃ best, (List.insertionSort confDesc l).head? = some best ∧ best ∈ l ∧
      ∀ p ∈ l, p.confidence ≤ best.confidence := by
  cases e : List.insertionSort confDesc l with
  | nil =>
    have hp := List.perm_insertionSort confDesc l
    rw [e] at hp
    exact absurd hp.symm.eq_nil h
  | cons b rest =>
    refine ⟨b, rfl, ?_, ?_⟩
    · have : b ∈ List.insertionSort confDesc l := e ▸ List.mem_cons_self b rest
      exact (List.mem_insertionSort confDesc).mp this
    · intro p hp
      have hp2 : p ∈ List.insertionSort confDesc l := (List.mem_insertionSort confDesc).mpr hp
      rw [e] at hp2
      rcases List.mem_cons.mp hp2 with h1 | h2
      · exact h1 ▸ le_refl _
      · have hs := List.sorted_insertionSort confDesc l
        rw [e] at hs
        exact List.rel_of_sorted_cons hs p h2

theorem deriveVerdict_pos_fields (preds : List Prediction) (img : Option ImageDims)
    (now b64 : String) (h : preds ≠ []) (best : Prediction)
    (hb : (List.insertionSort confDesc preds).head? = some best) :
    (deriveVerdict ⟨some preds, img⟩ now b64).status =
      (if jsIncludes (jsToLowerCase best.«class») "healthy" then .Safe else .Contaminated) ∧
    (deriveVerdict ⟨some preds, img⟩ now b64).confidence = best.confidence ∧
    (deriveVerdict ⟨some preds, img⟩ now b64).primarySymptom =
      jsToUpperCase (replaceChar '-' ' ' best.«class») ∧
    (deriveVerdict ⟨some preds, img⟩ now b64).boundingBoxes =
      (List.insertionSort confDesc preds).map
        (fun p => normalizeCoordinates p (jsOrOne (img.bind ImageDims.width))
          (jsOrOne (img.bind ImageDims.height))) := by
  have hlen : 0 < preds.length := List.length_pos.mpr h
  simp only [deriveVerdict, Option.getD_some, gt_iff_lt, hlen, decide_true_eq_true, if_true, hb]
  exact ⟨trivial, trivial, trivial, trivial⟩

/-! ### Claims -/

/-- C2: for every prediction with pixel-space center `(x, y)` and non-negative
size `(width, height)` and image dimensions `W, H > 0`, `normalizeCoordinates`
computes the four bounds by the stated formulas, clamps each into `[0, 1000]`,
and the resulting box satisfies `0 ≤ ymin ≤ ymax ≤ 1000` and
`0 ≤ xmin ≤ xmax ≤ 1000`, also for boxes exceeding the image bounds. -/
theorem normalizeCoordinates_formulas_and_box_order (p : Prediction) (W H : ℚ)
    (hW : 0 < W) (hH : 0 < H) (hw : 0 ≤ p.width) (hh : 0 ≤ p.height) :
    normalizeCoordinates p W H =
      { ymin := clampBound (((p.y - p.height / 2) / H) * 1000)
        xmin := clampBound (((p.x - p.width / 2) / W) * 1000)
        ymax := clampBound (((p.y + p.height / 2) / H) * 1000)
        xmax := clampBound (((p.x + p.width / 2) / W) * 1000) } ∧
    0 ≤ (normalizeCoordinates p W H).ymin ∧
    (normalizeCoordinates p W H).ymin ≤ (normalizeCoordinates p W H).ymax ∧
    (normalizeCoordinates p W H).ymax ≤ 1000 ∧
    0 ≤ (normalizeCoordinates p W H).xmin ∧
    (normalizeCoordinates p W H).xmin ≤ (normalizeCoordinates p W H).xmax ∧
    (normalizeCoordinates p W H).xmax ≤ 1000 := by
  have hx : p.x - p.width / 2 ≤ p.x + p.width / 2 := by linarith
  have hy : p.y - p.height / 2 ≤ p.y + p.height / 2 := by linarith
  have hx2 : ((p.x - p.width / 2) / W) * 1000 ≤ ((p.x + p.width / 2) / W) * 1000 :=
    mul_le_mul_of_nonneg_right ((div_le_div_iff_of_pos_right hW).mpr hx) (by norm_num)
  have hy2 : ((p.y - p.height / 2) / H) * 1000 ≤ ((p.y + p.height / 2) / H) * 1000 :=
    mul_le_mul_of_nonneg_right ((div_le_div_iff_of_pos_right hH).mpr hy) (by norm_num)
  exact ⟨rfl, clampBound_nonneg _, clampBound_mono hy2, clampBound_le _,
    clampBound_nonneg _, clampBound_mono hx2, clampBound_le _⟩

/-- Concrete instance of the C2 theorem: a 400×200 box centered at (900, 50) in
a 1000×100 image exceeds the right image bound and is clamped. -/
theorem normalizeCoordinates_formulas_and_box_order_witness :
    (0 : ℚ) < 1000 ∧ (0 : ℚ) < 100 ∧
    (0 : ℚ) ≤ (Prediction.mk 900 50 400 200 "fish" 1).width ∧
    (0 : ℚ) ≤ (Prediction.mk 900 50 400 200 "fish" 1).height ∧
    (normalizeCoordinates (Prediction.mk 900 50 400 200 "fish" 1) 1000 100 =
      { ymin := clampBound ((((Prediction.mk 900 50 400 200 "fish" 1).y -
            (Prediction.mk 900 50 400 200 "fish" 1).height / 2) / 100) * 1000)
        xmin := clampBound ((((Prediction.mk 900 50 400 200 "fish" 1).x -
            (Prediction.mk 900 50 400 200 "fish" 1).width / 2) / 1000) * 1000)
        ymax := clampBound ((((Prediction.mk 900 50 400 200 "fish" 1).y +
            (Prediction.mk 900 50 400 200 "fish" 1).height / 2) / 100) * 1000)
        xmax := clampBound ((((Prediction.mk 900 50 400 200 "fish" 1).x +
            (Prediction.mk 900 50 400 200 "fish" 1).width / 2) / 1000) * 1000) } ∧
      0 ≤ (normalizeCoordinates (Prediction.mk 900 50 400 200 "fish" 1) 1000 100).ymin ∧
      (normalizeCoordinates (Prediction.mk 900 50 400 200 "fish" 1) 1000 100).ymin ≤
        (normalizeCoordinates (Prediction.mk 900 50 400 200 "fish" 1) 1000 100).ymax ∧
      (normalizeCoordinates (Prediction.mk 900 50 400 200 "fish" 1) 1000 100).ymax ≤ 1000 ∧
      0 ≤ (normalizeCoordinates (Prediction.mk 900 50 400 200 "fish" 1) 1000 100).xmin ∧
      (normalizeCoordinates (Prediction.mk 900 50 400 200 "fish" 1) 1000 100).xmin ≤
        (normalizeCoordinates (Prediction.mk 900 50 400 200 "fish" 1) 1000 100).xmax ∧
      (normalizeCoordinates (Prediction.mk 900 50 400 200 "fish" 1) 1000 100).xmax ≤ 1000) :=
  ⟨by decide, by decide, by decide, by decide,
    normalizeCoordinates_formulas_and_box_order (Prediction.mk 900 50 400 200 "fish" 1)
      1000 100 (by decide) (by decide) (by decide) (by decide)⟩

/-- C7: when `analyzeImage` fails while the application is analyzing a captured
frame, `handleCapture` moves the state to `ERROR` with the failure message
stored, the captured frame stays stored, and the verdict cell is untouched
(it keeps its pre-capture value). -/
theorem handleCapture_failure_keeps_frame_and_verdict (s : AppState)
    (imageData errMsg : String) :
    (handleCaptureFinish (handleCaptureStart s imageData) (.error errMsg)).status = .ERROR ∧
    (handleCaptureFinish (handleCaptureStart s imageData) (.error errMsg)).error =
      some (jsMessageOr errMsg "An unexpected error occurred during analysis.") ∧
    (handleCaptureFinish (handleCaptureStart s imageData) (.error errMsg)).lastImg =
      some imageData ∧
    (handleCaptureFinish (handleCaptureStart s imageData) (.error errMsg)).result = s.result :=
  ⟨rfl, rfl, rfl, rfl⟩

/-- C8: `resetDetection` from a `SUCCESS` or `ERROR` state returns to `IDLE`
with the verdict and error cells back at their initial empty values, and the
full cycle capture → success → reset starting at the initial state ends with
empty verdict and error cells. -/
theorem resetDetection_restores_transient_fields (s : AppState)
    (_h : s.status = .SUCCESS ∨ s.status = .ERROR) (img : String) (r : DetectionResult) :
    (resetDetection s).status = .IDLE ∧
    (resetDetection s).result = initialAppState.result ∧
    (resetDetection s).error = initialAppState.error ∧
    resetDetection (handleCaptureFinish (handleCaptureStart initialAppState img) (.ok r)) =
      { initialAppState with lastImg := some img } :=
  ⟨rfl, rfl, rfl, rfl⟩

/-- Concrete instance of the C8 theorem, starting the reset from a `SUCCESS`
state. -/
theorem resetDetection_restores_transient_fields_witness :
    ((AppState.mk .SUCCESS none none none false).status = .SUCCESS ∨
      (AppState.mk .SUCCESS none none none false).status = .ERROR) ∧
    ((resetDetection (AppState.mk .SUCCESS none none none false)).status = .IDLE ∧
      (resetDetection (AppState.mk .SUCCESS none none none false)).result =
        initialAppState.result ∧
      (resetDetection (AppState.mk .SUCCESS none none none false)).error =
        initialAppState.error ∧
      resetDetection (handleCaptureFinish (handleCaptureStart initialAppState "img")
          (.ok (deriveVerdict (ResponseData.mk none none) "t" "img"))) =
        { initialAppState with lastImg := some "img" }) :=
  ⟨Or.inl rfl,
    resetDetection_restores_transient_fields (AppState.mk .SUCCESS none none none false)
      (Or.inl rfl) "img" (deriveVerdict (ResponseData.mk none none) "t" "img")⟩

/-- C4 counterexample: for the concrete non-2xx response with status text
`Not Found`, `analyzeImage` fails with the generic detection-failed message,
which does not carry the status text (the status-text error is swallowed by
the top-level catch). -/
theorem analyzeImage_non2xx_counterexample :
    analyzeImage "img"
        (.success (HttpResponse.mk false "Not Found" (.error "unused"))) "t" =
      .error detectionFailedMsg ∧
    jsIncludes detectionFailedMsg "Not Found" = false :=
  ⟨rfl, by decide⟩

/-- C4 (amended): for every response with a non-success HTTP status, the `try`
body of `analyzeImage` raises an error carrying the response's status text, the
top-level catch replaces it so that `analyzeImage` itself fails with the
generic detection-failed message, and no verdict is constructed. -/
theorem analyzeImage_non2xx_fails (st : String) (body : Except String ResponseData)
    (b64 now : String) :
    analyzeImageBody b64 (.success (HttpResponse.mk false st body)) now =
      .error ("Roboflow API error: " ++ st) ∧
    analyzeImage b64 (.success (HttpResponse.mk false st body)) now =
      .error detectionFailedMsg :=
  ⟨rfl, rfl⟩

/-- C5 counterexample: the concrete response whose parsed body is missing both
the `predictions` and the `image` fields is not treated as a failure:
`analyzeImage` returns a complete No-Fish-Detected verdict instead of the
generic detection-failed error. -/
theorem analyzeImage_missing_fields_counterexample :
    analyzeImage "img"
        (.success (HttpResponse.mk true "OK" (.ok (ResponseData.mk none none)))) "t" =
      .ok (deriveVerdict (ResponseData.mk none none) "t" "img") ∧
    (deriveVerdict (ResponseData.mk none none) "t" "img").status = .NoFishDetected ∧
    ∀ msg : String,
      analyzeImage "img"
          (.success (HttpResponse.mk true "OK" (.ok (ResponseData.mk none none)))) "t" ≠
        .error msg :=
  ⟨rfl, rfl, fun _ hcontra => Except.noConfusion hcontra⟩

/-- C5 (amended): a network failure, a body that fails to parse as JSON, and a
non-success status each surface as the single generic detection-failed error
with no verdict; but a response that parses with missing `predictions` or
`image` fields is not an error: the fields are defaulted (`predictions` to the
empty list, each dimension to `1`) and a complete verdict is produced. -/
theorem analyzeImage_failure_and_defaulting (netMsg parseMsg st b64 now : String)
    (rd : ResponseData) :
    analyzeImage b64 (.networkError netMsg) now = .error detectionFailedMsg ∧
    analyzeImage b64 (.success (HttpResponse.mk true st (.error parseMsg))) now =
      .error detectionFailedMsg ∧
    analyzeImage b64 (.success (HttpResponse.mk false st (.ok rd))) now =
      .error detectionFailedMsg ∧
    analyzeImage b64 (.success (HttpResponse.mk true st (.ok rd))) now =
      .ok (deriveVerdict rd now b64) ∧
    (deriveVerdict (ResponseData.mk none none) now b64).status = .NoFishDetected ∧
    (deriveVerdict (ResponseData.mk none none) now b64).boundingBoxes = [] ∧
    jsOrOne ((ResponseData.mk none (some (ImageDims.mk none none))).image.bind
      ImageDims.width) = 1 :=
  ⟨rfl, rfl, rfl, rfl, rfl, rfl, rfl⟩

/-- C3: every successful response whose prediction list is empty (after the
source's defaulting of a missing `predictions` field) derives the fixed
No-Fish-Detected verdict: confidence `0`, no bounding boxes, primary symptom
`NONE`, and the fixed instructional description and guidance text. -/
theorem deriveVerdict_empty_predictions (po : Option (List Prediction))
    (img : Option ImageDims) (now b64 : String) (h : po.getD [] = []) :
    deriveVerdict (ResponseData.mk po img) now b64 =
      { status := .NoFishDetected
        confidence := 0
        description := "No fish or HAB indicators were detected in the frame. Please ensure the sample is centered and well-lit."
        guidance := "Please try scanning again. Position the fish clearly in the center of the frame."
        timestamp := now
        image := b64
        location := "Binangonan, Rizal"
        primarySymptom := "NONE"
        boundingBoxes := [] } := by
  simp [deriveVerdict, h]

/-- Concrete instance of the C3 theorem at a response with no `predictions`
field at all. -/
theorem deriveVerdict_empty_predictions_witness :
    (none : Option (List Prediction)).getD [] = [] ∧
    deriveVerdict (ResponseData.mk none none) "t" "img" =
      { status := .NoFishDetected
        confidence := 0
        description := "No fish or HAB indicators were detected in the frame. Please ensure the sample is centered and well-lit."
        guidance := "Please try scanning again. Position the fish clearly in the center of the frame."
        timestamp := "t"
        image := "img"
        location := "Binangonan, Rizal"
        primarySymptom := "NONE"
        boundingBoxes := [] } :=
  ⟨rfl, deriveVerdict_empty_predictions none none "t" "img" rfl⟩

/-- C6: the `|| 1` fallback applied to the response's image dimensions never
lets a zero divisor through: a missing or zero width or height is replaced by
`1`, an effective dimension is never `0`, and the verdict's bounding boxes are
exactly the predictions normalized with these guarded dimensions, so the
normalization never divides by zero. -/
theorem dimension_fallback_guards_division :
    (∀ v : Option ℚ, jsOrOne v ≠ 0) ∧ jsOrOne none = 1 ∧ jsOrOne (some 0) = 1 ∧
    ∀ (rd : ResponseData) (now b64 : String),
      (deriveVerdict rd now b64).boundingBoxes =
        (if ((rd.predictions.getD []).length > 0 : Bool) then
            List.insertionSort confDesc (rd.predictions.getD [])
          else rd.predictions.getD []).map
          (fun p => normalizeCoordinates p (jsOrOne (rd.image.bind ImageDims.width))
            (jsOrOne (rd.image.bind ImageDims.height))) := by
  refine ⟨?_, rfl, by norm_num [jsOrOne], fun rd now b64 => rfl⟩
  intro v
  match v with
  | none => exact one_ne_zero
  | some q =>
    by_cases hq : q = 0
    · simp [jsOrOne, hq]
    · simp [jsOrOne, hq]

/-- The first prediction of the spec's worked example:
`{class: "healthy-fish", confidence: 0.9}` (center and size immaterial). -/
def examplePredHealthyFish : Prediction := Prediction.mk 0 0 0 0 "healthy-fish" (9/10)

/-- The second prediction of the spec's worked example:
`{class: "lesion", confidence: 0.95}`. -/
def examplePredLesion : Prediction := Prediction.mk 0 0 0 0 "lesion" (95/100)

theorem insertionSort_example :
    List.insertionSort confDesc [examplePredHealthyFish, examplePredLesion] =
      [examplePredLesion, examplePredHealthyFish] := by
  have hno : ¬ confDesc examplePredHealthyFish examplePredLesion := by
    norm_num [confDesc, examplePredHealthyFish, examplePredLesion]
  simp only [List.insertionSort, List.orderedInsert, if_neg hno]

/-- C1: for every non-empty prediction list the verdict is driven by the best
prediction — the head of the stable descending sort, which carries the maximum
confidence — and the status is `Safe` exactly when that prediction's
lower-cased class label contains `healthy`, else `Contaminated`; in particular
on `[{class: "healthy-fish", confidence: 0.9}, {class: "lesion",
confidence: 0.95}]` the best prediction is the `lesion` entry and the status is
`Contaminated`. -/
theorem deriveVerdict_best_prediction (preds : List Prediction) (img : Option ImageDims)
    (now b64 : String) (h : preds ≠ []) :
    (∃ best, (List.insertionSort confDesc preds).head? = some best ∧ best ∈ preds ∧
      (∀ p ∈ preds, p.confidence ≤ best.confidence) ∧
      (deriveVerdict (ResponseData.mk (some preds) img) now b64).status =
        (if jsIncludes (jsToLowerCase best.«class») "healthy" then .Safe
          else .Contaminated) ∧
      (deriveVerdict (ResponseData.mk (some preds) img) now b64).confidence =
        best.confidence) ∧
    (List.insertionSort confDesc [examplePredHealthyFish, examplePredLesion]).head? =
      some examplePredLesion ∧
    (deriveVerdict (ResponseData.mk (some [examplePredHealthyFish, examplePredLesion]) img)
        now b64).status = .Contaminated := by
  obtain ⟨best, hb, hmem, hmax⟩ := head_insertionSort_max preds h
  obtain ⟨hs, hc, _, _⟩ := deriveVerdict_pos_fields preds img now b64 h best hb
  have hhd : (List.insertionSort confDesc [examplePredHealthyFish, examplePredLesion]).head? =
      some examplePredLesion := by rw [insertionSort_example]; rfl
  refine ⟨⟨best, hb, hmem, hmax, hs, hc⟩, hhd, ?_⟩
  obtain ⟨hs2, _, _, _⟩ := deriveVerdict_pos_fields
    [examplePredHealthyFish, examplePredLesion] img now b64 (by decide) examplePredLesion hhd
  rw [hs2]
  have : jsIncludes (jsToLowerCase examplePredLesion.«class») "healthy" = false := by decide
  simp [this]

/-- Concrete instance of the C1 theorem at the one-element list
`[examplePredLesion]`. -/
theorem deriveVerdict_best_prediction_witness :
    [examplePredLesion] ≠ [] ∧
    ((∃ best, (List.insertionSort confDesc [examplePredLesion]).head? = some best ∧
      best ∈ [examplePredLesion] ∧
      (∀ p ∈ [examplePredLesion], p.confidence ≤ best.confidence) ∧
      (deriveVerdict (ResponseData.mk (some [examplePredLesion]) none) "t" "i").status =
        (if jsIncludes (jsToLowerCase best.«class») "healthy" then .Safe
          else .Contaminated) ∧
      (deriveVerdict (ResponseData.mk (some [examplePredLesion]) none) "t" "i").confidence =
        best.confidence) ∧
    (List.insertionSort confDesc [examplePredHealthyFish, examplePredLesion]).head? =
      some examplePredLesion ∧
    (deriveVerdict
        (ResponseData.mk (some [examplePredHealthyFish, examplePredLesion]) none)
        "t" "i").status = .Contaminated) :=
  ⟨by decide, deriveVerdict_best_prediction [examplePredLesion] none "t" "i" (by decide)⟩

/-- C10: for every non-empty prediction list, the in-place descending sort that
picks the best prediction also reorders the list before the boxes are mapped,
so the verdict's bounding boxes are the sorted predictions' boxes — pairwise in
non-increasing confidence order — and the first box (the one `getZoomStyle`
zooms on) is the box of the best (maximum-confidence) prediction. -/
theorem deriveVerdict_boxes_follow_sort (preds : List Prediction) (img : Option ImageDims)
    (now b64 : String) (h : preds ≠ []) :
    (deriveVerdict (ResponseData.mk (some preds) img) now b64).boundingBoxes =
      (List.insertionSort confDesc preds).map
        (fun p => normalizeCoordinates p (jsOrOne (img.bind ImageDims.width))
          (jsOrOne (img.bind ImageDims.height))) ∧
    List.Pairwise (fun a b => b.confidence ≤ a.confidence)
      (List.insertionSort confDesc preds) ∧
    ∃ best, (List.insertionSort confDesc preds).head? = some best ∧
      (∀ p ∈ preds, p.confidence ≤ best.confidence) ∧
      (deriveVerdict (ResponseData.mk (some preds) img) now b64).boundingBoxes.head? =
        some (normalizeCoordinates best (jsOrOne (img.bind ImageDims.width))
          (jsOrOne (img.bind ImageDims.height))) ∧
      getZoomOrigin (deriveVerdict (ResponseData.mk (some preds) img) now b64) =
        (((normalizeCoordinates best (jsOrOne (img.bind ImageDims.width))
            (jsOrOne (img.bind ImageDims.height))).xmin +
          (normalizeCoordinates best (jsOrOne (img.bind ImageDims.width))
            (jsOrOne (img.bind ImageDims.height))).xmax) / 20,
         ((normalizeCoordinates best (jsOrOne (img.bind ImageDims.width))
            (jsOrOne (img.bind ImageDims.height))).ymin +
          (normalizeCoordinates best (jsOrOne (img.bind ImageDims.width))
            (jsOrOne (img.bind ImageDims.height))).ymax) / 20) := by
  obtain ⟨best, hb, _, hmax⟩ := head_insertionSort_max preds h
  obtain ⟨hs, _, _, hboxes⟩ := deriveVerdict_pos_fields preds img now b64 h best hb
  have hsorted : List.Pairwise (fun a b => b.confidence ≤ a.confidence)
      (List.insertionSort confDesc preds) := List.sorted_insertionSort confDesc preds
  have hheadbox : (deriveVerdict (ResponseData.mk (some preds) img) now b64).boundingBoxes.head? =
      some (normalizeCoordinates best (jsOrOne (img.bind ImageDims.width))
        (jsOrOne (img.bind ImageDims.height))) := by
    rw [hboxes, List.head?_map, hb]
    rfl
  refine ⟨hboxes, hsorted, best, hb, hmax, hheadbox, ?_⟩
  have hstat : ¬ ((deriveVerdict (ResponseData.mk (some preds) img) now b64).status =
      .NoFishDetected ∨
      (deriveVerdict (ResponseData.mk (some preds) img) now b64).boundingBoxes.length = 0) := by
    rw [not_or]
    constructor
    · rw [hs]
      split
      · simp
      · simp
    · rw [hboxes, List.length_map, List.length_insertionSort]
      exact Nat.pos_iff_ne_zero.mp (List.length_pos.mpr h)
  rw [getZoomOrigin, if_neg hstat, hheadbox]

/-- Concrete instance of the C10 theorem at a one-element prediction list in a
640×480 image. -/
theorem deriveVerdict_boxes_follow_sort_witness :
    [Prediction.mk 100 100 50 50 "lesion" 1] ≠ [] ∧
    ((deriveVerdict (ResponseData.mk (some [Prediction.mk 100 100 50 50 "lesion" 1])
          (some (ImageDims.mk (some 640) (some 480)))) "t" "i").boundingBoxes =
      (List.insertionSort confDesc [Prediction.mk 100 100 50 50 "lesion" 1]).map
        (fun p => normalizeCoordinates p
          (jsOrOne ((some (ImageDims.mk (some 640) (some 480))).bind ImageDims.width))
          (jsOrOne ((some (ImageDims.mk (some 640) (some 480))).bind ImageDims.height))) ∧
    List.Pairwise (fun a b => b.confidence ≤ a.confidence)
      (List.insertionSort confDesc [Prediction.mk 100 100 50 50 "lesion" 1]) ∧
    ∃ best, (List.insertionSort confDesc [Prediction.mk 100 100 50 50 "lesion" 1]).head? =
        some best ∧
      (∀ p ∈ [Prediction.mk 100 100 50 50 "lesion" 1], p.confidence ≤ best.confidence) ∧
      (deriveVerdict (ResponseData.mk (some [Prediction.mk 100 100 50 50 "lesion" 1])
          (some (ImageDims.mk (some 640) (some 480)))) "t" "i").boundingBoxes.head? =
        some (normalizeCoordinates best
          (jsOrOne ((some (ImageDims.mk (some 640) (some 480))).bind ImageDims.width))
          (jsOrOne ((some (ImageDims.mk (some 640) (some 480))).bind ImageDims.height))) ∧
      getZoomOrigin (deriveVerdict
          (ResponseData.mk (some [Prediction.mk 100 100 50 50 "lesion" 1])
            (some (ImageDims.mk (some 640) (some 480)))) "t" "i") =
        (((normalizeCoordinates best
            (jsOrOne ((some (ImageDims.mk (some 640) (some 480))).bind ImageDims.width))
            (jsOrOne ((some (ImageDims.mk (some 640) (some 480))).bind
              ImageDims.height))).xmin +
          (normalizeCoordinates best
            (jsOrOne ((some (ImageDims.mk (some 640) (some 480))).bind ImageDims.width))
            (jsOrOne ((some (ImageDims.mk (some 640) (some 480))).bind
              ImageDims.height))).xmax) / 20,
         ((normalizeCoordinates best
            (jsOrOne ((some (ImageDims.mk (some 640) (some 480))).bind ImageDims.width))
            (jsOrOne ((some (ImageDims.mk (some 640) (some 480))).bind
              ImageDims.height))).ymin +
          (normalizeCoordinates best
            (jsOrOne ((some (ImageDims.mk (some 640) (some 480))).bind ImageDims.width))
            (jsOrOne ((some (ImageDims.mk (some 640) (some 480))).bind
              ImageDims.height))).ymax) / 20)) :=
  ⟨by decide, deriveVerdict_boxes_follow_sort [Prediction.mk 100 100 50 50 "lesion" 1]
    (some (ImageDims.mk (some 640) (some 480))) "t" "i" (by decide)⟩

/-- A successful response carrying one `lesion` prediction with confidence
`0.823` in a 640×480 image. -/
def response823 : ResponseData :=
  ResponseData.mk (some [Prediction.mk 10 20 30 40 "lesion" (823/1000)])
    (some (ImageDims.mk (some 640) (some 480)))

/-- The verdict derived from `response823`. -/
def verdict823 : DetectionResult := deriveVerdict response823 "01/01/25, 12:00 PM" "img"

/-- C9: for a prediction confidence of `0.823`, the percentage embedded in the
verdict's description text is the integer-rounded `82%`, while the display
percentage (`ResultDisplay`) and the report percentage (`downloadReport`) are
the one-decimal `82.3%` — the two call sites use the two different roundings. -/
theorem confidence_formatting_two_roundings :
    verdict823.confidence = 823/1000 ∧
    verdict823.description =
      "Your custom model detected lesion with 82% certainty. This indicates a high risk of HAB contamination." ∧
    jsIncludes verdict823.description "82%" = true ∧
    jsIncludes verdict823.description "82.3%" = false ∧
    confidenceDisplay verdict823 = "82.3%" ∧
    jsIncludes (reportContent verdict823) "82.3%" = true := by
  have h82 : jsRound ((823:ℚ)/1000 * 100) = 82 := by norm_num [jsRound]
  have h823 : jsRound ((823:ℚ)/1000 * 100 * 10) = 823 := by norm_num [jsRound]
  have hdesc : verdict823.description =
      "Your custom model detected " ++ "lesion" ++ " with " ++
        toString (jsRound ((823:ℚ)/1000 * 100)) ++
        "% certainty. This indicates a high risk of HAB contamination." := rfl
  rw [h82] at hdesc
  have hdesc2 : verdict823.description =
      "Your custom model detected lesion with 82% certainty. This indicates a high risk of HAB contamination." := by
    rw [hdesc]; decide
  have hdisp : confidenceDisplay verdict823 =
      toString (jsRound ((823:ℚ)/1000 * 100 * 10) / 10) ++ "." ++
        toString (jsRound ((823:ℚ)/1000 * 100 * 10) % 10) ++ "%" := rfl
  rw [h823] at hdisp
  have hdisp2 : confidenceDisplay verdict823 = "82.3%" := by rw [hdisp]; decide
  have hrep : reportContent verdict823 =
      "LIYA - HAB DETECTION REPORT\n==========================\nDate/Time: " ++
        "01/01/25, 12:00 PM" ++
      "\nLocation: " ++ "Binangonan, Rizal" ++
      "\nOverall Status: " ++ "Contaminated" ++
      "\nConfidence: " ++ (toString (jsRound ((823:ℚ)/1000 * 100 * 10) / 10) ++ "." ++
        toString (jsRound ((823:ℚ)/1000 * 100 * 10) % 10)) ++ "%" ++
      "\n\nINDICATORS DETECTED:\n- Primary Indicator: " ++ "LESION" ++
      "\n- Description: " ++ ("Your custom model detected " ++ "lesion" ++ " with " ++
        toString (jsRound ((823:ℚ)/1000 * 100)) ++
        "% certainty. This indicates a high risk of HAB contamination.") ++
      "\n\nGUIDANCE:\n- " ++
        "DO NOT CONSUME. Report this sample to the nearest BFAR or LLDA station immediately." ++
      "\n\nCONTACTS:\n- LLDA: (02) 8376-4039\n- BFAR: (049) 536-8200\n==========================" := rfl
  rw [h82, h823] at hrep
  refine ⟨rfl, hdesc2, ?_, ?_, hdisp2, ?_⟩
  · rw [hdesc2]; decide
  · rw [hdesc2]; decide
  · rw [hrep]; decide
